import Mathlib

/-!
Verification of the scanning-and-scoring engine of a GitHub repository
analyzer.  The Python sources (`advanced_github_analyzer.py`,
`github_scraper.py`) are shallowly embedded below: machine floats become
exact rationals (`ℚ`), Python lists become `List`, dataclasses become
structures, and the regex engine used by the per-file scanners becomes an
explicit oracle parameter `finditer : String → String → List Nat` that
returns the start offsets of the matches of a pattern in a content string
(for the one fixture that needs actual regex semantics, the relevant
pattern is implemented as an executable matcher).
-/

namespace GithubAnalyzer

/-- Embeds the dataclass `SecurityVulnerability` of
`advanced_github_analyzer.py`. -/
structure SecurityVulnerability where
  severity : String
  type : String
  description : String
  file : String
  line : Nat
  cwe_id : Option String := none
  fix_suggestion : Option String := none
deriving DecidableEq, Repr

/-- Embeds the dataclass `CodeQualityIssue`. -/
structure CodeQualityIssue where
  type : String
  severity : String
  message : String
  file : String
  line : Nat
  rule : String
  effort : String
deriving DecidableEq, Repr

/-- Embeds the dataclass `ArchitecturePattern`. -/
structure ArchitecturePattern where
  pattern : String
  confidence : ℚ
  evidence : List String
  files : List String
deriving DecidableEq, Repr

/-- Embeds the inner function `get_grade(count, total)` of
`_calculate_acid_scores_detailed` (`advanced_github_analyzer.py` lines
662–675; the identical copy sits in `github_scraper.py` lines 443–456).
Python float division and float literals are embedded as exact rational
arithmetic. -/
def get_grade (count total : Nat) : String :=
  if total = 0 then "A"
  else
    let ratio : ℚ := (count : ℚ) / (total : ℚ)
    if ratio < 0.01 then "A"
    else if ratio < 0.05 then "B"
    else if ratio < 0.1 then "C"
    else if ratio < 0.2 then "D"
    else "E"

/-- The four score formulas of `_calculate_acid_scores_detailed`
(`advanced_github_analyzer.py` lines 681–685); Python float constants
`0.1` and `0.2` become exact rationals. -/
def quality_score_formula (bugs vulnerabilities_count code_smells : Nat) : ℚ :=
  max 0 (100 - ((bugs : ℚ) * 5) - ((vulnerabilities_count : ℚ) * 20)
    - ((code_smells : ℚ) * 0.1))

/-- `security_score = max(0, 100 - (vulnerabilities_count * 30))`. -/
def security_score_formula (vulnerabilities_count : Nat) : ℚ :=
  max 0 (100 - ((vulnerabilities_count : ℚ) * 30))

/-- `maintainability_score = max(0, 100 - (code_smells * 0.2))`. -/
def maintainability_score_formula (code_smells : Nat) : ℚ :=
  max 0 (100 - ((code_smells : ℚ) * 0.2))

/-- `reliability_score = max(0, 100 - (bugs * 10))`. -/
def reliability_score_formula (bugs : Nat) : ℚ :=
  max 0 (100 - ((bugs : ℚ) * 10))

/-- The record returned by `_calculate_acid_scores_detailed`. -/
structure AcidScores where
  bugs : Nat
  vulnerabilities : Nat
  code_smells : Nat
  bugs_grade : String
  vulnerabilities_grade : String
  code_smells_grade : String
  quality_score : ℚ
  security_score : ℚ
  maintainability_score : ℚ
  reliability_score : ℚ
deriving DecidableEq, Repr

/-- Embeds `_calculate_acid_scores_detailed` (`advanced_github_analyzer.py`
lines 651–698).  The Python `code_metrics` dict is represented by its two
extracted fields `total_lines` (bound but unused by the source) and
`total_files`. -/
def calculate_acid_scores_detailed (total_lines total_files : Nat)
    (vulnerabilities : List SecurityVulnerability)
    (quality_issues : List CodeQualityIssue) : AcidScores :=
  let _ := total_lines
  let bugs := (quality_issues.filter (fun issue => issue.type == "bug")).length
  let code_smells :=
    (quality_issues.filter (fun issue => issue.type == "code_smell")).length
  let vulnerabilities_count := vulnerabilities.length
  { bugs := bugs
    vulnerabilities := vulnerabilities_count
    code_smells := code_smells
    bugs_grade := get_grade bugs total_files
    vulnerabilities_grade := get_grade vulnerabilities_count total_files
    code_smells_grade := get_grade code_smells total_files
    quality_score := quality_score_formula bugs vulnerabilities_count code_smells
    security_score := security_score_formula vulnerabilities_count
    maintainability_score := maintainability_score_formula code_smells
    reliability_score := reliability_score_formula bugs }

/-- The single finding the mock vulnerability database ever produces. -/
def jquery_xss_vulnerability : SecurityVulnerability :=
  { severity := "high", type := "XSS",
    description := "jQuery XSS vulnerability",
    file := "package.json", line := 0, cwe_id := some "CWE-79" }

/-- Python's substring operator `needle in hay` on character lists:
true iff `needle` occurs contiguously in the list. -/
def list_contains_infix (needle : List Char) : List Char → Bool
  | [] => needle.isEmpty
  | c :: rest => needle.isPrefixOf (c :: rest) || list_contains_infix needle rest

/-- Python's lexicographic `<` on strings, as code-point sequences. -/
def chars_lt : List Char → List Char → Bool
  | [], [] => false
  | [], _ :: _ => true
  | _ :: _, [] => false
  | a :: as, b :: bs =>
    if a < b then true else if b < a then false else chars_lt as bs

/-- Python's `str.lower()` (ASCII case folding, which is all the analyzer's
package names use). -/
def py_lower (s : String) : List Char := s.toList.map Char.toLower

/-- Embeds `_check_dependency_vulnerabilities(name, version)`
(`advanced_github_analyzer.py` lines 499–516): Python's
`'jquery' in name.lower()` is the infix test on the lowered character
list, and `version < '3.0.0'` is lexicographic string comparison. -/
def check_dependency_vulnerabilities (name version : String) :
    List SecurityVulnerability :=
  if list_contains_infix "jquery".toList (py_lower name)
      && chars_lt version.toList "3.0.0".toList then
    [jquery_xss_vulnerability]
  else []

/-- Embeds `_detect_architecture_patterns` (`advanced_github_analyzer.py`
lines 615–649).  The filesystem is abstracted to the predicate
`dir_exists d`, true iff directory `d` exists directly under the root.
Note the source `extend`s the `files` list with the full fixed directory
list under the same single `if` that appends the evidence string. -/
def detect_architecture_patterns (dir_exists : String → Bool) :
    List ArchitecturePattern :=
  let mvc_cue := dir_exists "models" || dir_exists "views"
    || dir_exists "controllers"
  let mvc_evidence : List String :=
    if mvc_cue then ["MVC directory structure detected"] else []
  let mvc_files : List String :=
    if mvc_cue then ["models/", "views/", "controllers/"] else []
  let patterns : List ArchitecturePattern :=
    if mvc_evidence.isEmpty then []
    else [{ pattern := "MVC", confidence := 0.8,
            evidence := mvc_evidence, files := mvc_files }]
  let ms_cue := dir_exists "services" || dir_exists "microservices"
  let ms_evidence : List String :=
    if ms_cue then ["Microservices directory structure detected"] else []
  let ms_files : List String :=
    if ms_cue then ["services/", "microservices/"] else []
  if ms_evidence.isEmpty then patterns
  else patterns ++ [{ pattern := "Microservices", confidence := 0.7,
                      evidence := ms_evidence, files := ms_files }]

/-- The metrics dict returned by `_calculate_complexity_metrics`. -/
structure ComplexityMetrics where
  cyclomatic_complexity : ℚ
  cognitive_complexity : ℚ
  maintainability_index : ℚ
deriving DecidableEq, Repr

/-- Embeds `_calculate_complexity_metrics` (`advanced_github_analyzer.py`
lines 790–835) at the level of the accumulated structural counts: the
regex-based per-file counting feeds `total_functions`,
`total_conditionals`, `total_loops`, and the function then divides and
clamps exactly as below.  `cognitive_complexity` stays at its initial 0. -/
def calculate_complexity_metrics
    (total_functions total_conditionals total_loops : Nat) :
    ComplexityMetrics :=
  let cyclomatic : ℚ :=
    if total_functions > 0 then
      ((total_conditionals : ℚ) + (total_loops : ℚ) + (total_functions : ℚ))
        / (total_functions : ℚ)
    else 0
  { cyclomatic_complexity := cyclomatic
    cognitive_complexity := 0
    maintainability_index := max 0 (100 - cyclomatic * 10) }

/-- The `security_patterns` table of `_analyze_security_vulnerabilities`
(`advanced_github_analyzer.py` lines 523–545), pattern strings verbatim. -/
def security_patterns : List (String × List String) :=
  [("sql_injection",
    ["SELECT.*\\+.*\\$", "INSERT.*\\+.*\\$",
     "UPDATE.*\\+.*\\$", "DELETE.*\\+.*\\$"]),
   ("xss",
    ["innerHTML\\s*=", "document\\.write\\s*\\(", "eval\\s*\\("]),
   ("path_traversal",
    ["\\.\\./", "\\.\\.\\\\\\\\", "%2e%2e%2f"]),
   ("hardcoded_secrets",
    ["password\\s*=\\s*[\"\x27][^\"\x27]+[\"\x27]",
     "api_key\\s*=\\s*[\"\x27][^\"\x27]+[\"\x27]",
     "secret\\s*=\\s*[\"\x27][^\"\x27]+[\"\x27]"])]

/-- The `quality_patterns` table of `_analyze_code_quality_issues`
(`advanced_github_analyzer.py` lines 579–586), pattern strings verbatim. -/
def quality_patterns : List (String × String) :=
  [("long_function",
    "def\\s+\\w+\\([^)]*\\):\\s*\\n(?:[^\\n]*\\n)\x7b50,\x7d"),
   ("long_parameter_list",
    "def\\s+\\w+\\([^)]*,[^)]*,[^)]*,[^)]*,[^)]*,[^)]*\\):"),
   ("duplicate_code",
    "def\\s+(\\w+)\\([^)]*\\):.*?def\\s+\\1\\([^)]*\\):"),
   ("magic_numbers",
    "\\b(?:[0-9]\x7b3,\x7d|[0-9]+\\.[0-9]+)\\b"),
   ("empty_catch",
    "except[^:]*:\\s*\\n\\s*pass"),
   ("todo_comments",
    "#\\s*TODO|#\\s*FIXME|#\\s*HACK")]

/-- Python's `content[:start].count("\n") + 1`, the line-number computation
shared by both per-file scanners. -/
def line_number (content : String) (start : Nat) : Nat :=
  (content.toList.take start).count '\n' + 1

/-- Embeds the per-file body of `_analyze_security_vulnerabilities`
(`advanced_github_analyzer.py` lines 540–568).  Python's
`re.finditer(pattern, content, re.IGNORECASE)` is abstracted as the oracle
`finditer pattern content`, returning the match start offsets. -/
def analyze_security_vulnerabilities
    (finditer : String → String → List Nat)
    (file_path content : String) : List SecurityVulnerability :=
  security_patterns.flatMap fun vp =>
    vp.2.flatMap fun pattern =>
      (finditer pattern content).map fun start =>
        { severity := "medium", type := vp.1,
          description := "Potential " ++ vp.1 ++ " vulnerability",
          file := file_path, line := line_number content start }

/-- Embeds the per-file body of `_analyze_code_quality_issues`
(`advanced_github_analyzer.py` lines 574–613), with the same regex
oracle. -/
def analyze_code_quality_issues
    (finditer : String → String → List Nat)
    (file_path content : String) : List CodeQualityIssue :=
  quality_patterns.flatMap fun ip =>
    (finditer ip.2 content).map fun start =>
      { type := "code_smell", severity := "minor",
        message := "Potential " ++ ip.1 ++ " issue",
        file := file_path, line := line_number content start,
        rule := ip.1, effort := "5min" }

/-- Python's `\s` character class (ASCII part). -/
def is_py_space (c : Char) : Bool :=
  c == ' ' || c == '\t' || c == '\n' || c == '\r' || c == '\x0b' || c == '\x0c'

/-- A double or single quote, the `["\x27]` class of the secrets
patterns. -/
def is_quote (c : Char) : Bool := c == '"' || c == '\x27'

/-- Executable semantics of the regex
`password\s*=\s*["\x27][^"\x27]+["\x27]` with `re.IGNORECASE`, matching at
one start position of the content (the `[^"\x27]+` is greedy, so the body
run is maximal and must be followed by a quote). -/
def match_secret_at (content : List Char) (i : Nat) : Bool :=
  let l := (content.drop i).map Char.toLower
  if "password".toList.isPrefixOf l then
    match (l.drop 8).dropWhile is_py_space with
    | '=' :: r2 =>
      match r2.dropWhile is_py_space with
      | q :: r4 =>
        is_quote q &&
          (let body := r4.takeWhile (fun c => !(is_quote c))
           decide (1 ≤ body.length) &&
             (match r4.drop body.length with
              | c :: _ => is_quote c
              | [] => false))
      | [] => false
    | _ => false
  else false

/-- All start offsets at which the `password` secrets pattern matches the
content — the match-start set `re.finditer` reports for it on contents
with non-overlapping matches. -/
def password_secret_starts (content : String) : List Nat :=
  (List.range (content.length + 1)).filter fun i =>
    match_secret_at content.toList i

/-- The regex oracle instantiated for the line-number fixture: the
`password` secrets pattern uses the executable matcher; no other security
pattern matches the fixture content. -/
def fixture_finditer (pattern content : String) : List Nat :=
  if pattern = "password\\s*=\\s*[\"\x27][^\"\x27]+[\"\x27]" then
    password_secret_starts content
  else []

/-- The 3-line fixture file whose line 2 contains `password = "x"`. -/
def fixture_content : String := "line1\npassword = \"x\"\nline3"

/-- The finding the security scanner emits on the fixture content. -/
def fixture_secret_finding : SecurityVulnerability :=
  { severity := "medium", type := "hardcoded_secrets",
    description := "Potential hardcoded_secrets vulnerability",
    file := "test.py", line := 2 }

/-- C1: `get_grade(count, total)` returns `"A"` whenever `total = 0`; otherwise
with `ratio = count/total` it returns `"A"` if `ratio < 0.01`, `"B"` if
`ratio < 0.05`, `"C"` if `ratio < 0.1`, `"D"` if `ratio < 0.2`, and `"E"`
otherwise, first match winning, so a ratio exactly `0.01` maps to `"B"`,
exactly `0.05` to `"C"`, exactly `0.1` to `"D"`, and exactly `0.2` to
`"E"`. -/
theorem get_grade_banding (count total : Nat) :
    (total = 0 → get_grade count total = "A")
  ∧ (total ≠ 0 → (count : ℚ) / total < 0.01 → get_grade count total = "A")
  ∧ (total ≠ 0 → 0.01 ≤ (count : ℚ) / total → (count : ℚ) / total < 0.05 →
      get_grade count total = "B")
  ∧ (total ≠ 0 → 0.05 ≤ (count : ℚ) / total → (count : ℚ) / total < 0.1 →
      get_grade count total = "C")
  ∧ (total ≠ 0 → 0.1 ≤ (count : ℚ) / total → (count : ℚ) / total < 0.2 →
      get_grade count total = "D")
  ∧ (total ≠ 0 → 0.2 ≤ (count : ℚ) / total → get_grade count total = "E")
  ∧ (total ≠ 0 → (count : ℚ) / total = 0.01 → get_grade count total = "B")
  ∧ (total ≠ 0 → (count : ℚ) / total = 0.05 → get_grade count total = "C")
  ∧ (total ≠ 0 → (count : ℚ) / total = 0.1 → get_grade count total = "D")
  ∧ (total ≠ 0 → (count : ℚ) / total = 0.2 → get_grade count total = "E") := by
  refine ⟨?_, ?_, ?_, ?_, ?_, ?_, ?_, ?_, ?_, ?_⟩ <;>
    (intro h
     try intro h1
     try intro h2
     simp only [get_grade]
     split_ifs <;> first | rfl | contradiction | (exfalso; linarith))

/-- Witness for `get_grade_banding` at concrete boundary inputs. -/
theorem get_grade_banding_witness :
    get_grade 3 0 = "A"
  ∧ get_grade 1 100 = "B"
  ∧ get_grade 1 20 = "C"
  ∧ get_grade 1 10 = "D"
  ∧ get_grade 1 5 = "E" :=
  ⟨(get_grade_banding 3 0).1 rfl,
   (get_grade_banding 1 100).2.2.2.2.2.2.1 (by decide) (by norm_num),
   (get_grade_banding 1 20).2.2.2.2.2.2.2.1 (by decide) (by norm_num),
   (get_grade_banding 1 10).2.2.2.2.2.2.2.2.1 (by decide) (by norm_num),
   (get_grade_banding 1 5).2.2.2.2.2.2.2.2.2 (by decide) (by norm_num)⟩

/-- The grade of a zero count is always `"A"`, whatever the total. -/
theorem get_grade_zero (total : Nat) : get_grade 0 total = "A" := by
  by_cases h : total = 0
  · simp [get_grade, h]
  · simp only [get_grade, if_neg h, Nat.cast_zero, zero_div]
    rw [if_pos (by norm_num)]

/-- C2: with `b`, `v`, `s` the bug, vulnerability and code-smell counts
produced by the aggregation, the four scores are exactly
`quality = max(0, 100 - 5b - 20v - 0.1s)`, `security = max(0, 100 - 30v)`,
`maintainability = max(0, 100 - 0.2s)`, `reliability = max(0, 100 - 10b)`,
each clamped only at a minimum of 0. -/
theorem acid_score_formulas (total_lines total_files : Nat)
    (vulns : List SecurityVulnerability) (issues : List CodeQualityIssue) :
    let b := (issues.filter (fun issue => issue.type == "bug")).length
    let v := vulns.length
    let s := (issues.filter (fun issue => issue.type == "code_smell")).length
    let r := calculate_acid_scores_detailed total_lines total_files vulns issues
    r.bugs = b ∧ r.vulnerabilities = v ∧ r.code_smells = s
  ∧ r.quality_score = max 0 (100 - 5 * (b : ℚ) - 20 * (v : ℚ) - 0.1 * (s : ℚ))
  ∧ r.security_score = max 0 (100 - 30 * (v : ℚ))
  ∧ r.maintainability_score = max 0 (100 - 0.2 * (s : ℚ))
  ∧ r.reliability_score = max 0 (100 - 10 * (b : ℚ)) := by
  refine ⟨rfl, rfl, rfl, ?_, ?_, ?_, ?_⟩ <;>
    simp only [calculate_acid_scores_detailed, quality_score_formula,
      security_score_formula, maintainability_score_formula,
      reliability_score_formula] <;> ring_nf

/-- C7: each score is monotonically non-increasing in its driving counts —
`quality` in each of bugs, vulnerabilities, code smells; `security` in
vulnerabilities; `maintainability` in code smells; `reliability` in bugs —
and no score is ever below 0, for all non-negative integer counts. -/
theorem scores_monotone_and_nonneg :
    (∀ b b' v v' s s' : Nat, b ≤ b' → v ≤ v' → s ≤ s' →
      quality_score_formula b' v' s' ≤ quality_score_formula b v s)
  ∧ (∀ v v' : Nat, v ≤ v' →
      security_score_formula v' ≤ security_score_formula v)
  ∧ (∀ s s' : Nat, s ≤ s' →
      maintainability_score_formula s' ≤ maintainability_score_formula s)
  ∧ (∀ b b' : Nat, b ≤ b' →
      reliability_score_formula b' ≤ reliability_score_formula b)
  ∧ (∀ b v s : Nat, 0 ≤ quality_score_formula b v s)
  ∧ (∀ v : Nat, 0 ≤ security_score_formula v)
  ∧ (∀ s : Nat, 0 ≤ maintainability_score_formula s)
  ∧ (∀ b : Nat, 0 ≤ reliability_score_formula b) := by
  refine ⟨?_, ?_, ?_, ?_, ?_, ?_, ?_, ?_⟩
  · intro b b' v v' s s' hb hv hs
    have hb' : (b : ℚ) ≤ b' := by exact_mod_cast hb
    have hv' : (v : ℚ) ≤ v' := by exact_mod_cast hv
    have hs' : (s : ℚ) ≤ s' := by exact_mod_cast hs
    exact max_le_max le_rfl (by nlinarith)
  · intro v v' hv
    have hv' : (v : ℚ) ≤ v' := by exact_mod_cast hv
    exact max_le_max le_rfl (by nlinarith)
  · intro s s' hs
    have hs' : (s : ℚ) ≤ s' := by exact_mod_cast hs
    exact max_le_max le_rfl (by nlinarith)
  · intro b b' hb
    have hb' : (b : ℚ) ≤ b' := by exact_mod_cast hb
    exact max_le_max le_rfl (by nlinarith)
  · intro b v s; exact le_max_left 0 _
  · intro v; exact le_max_left 0 _
  · intro s; exact le_max_left 0 _
  · intro b; exact le_max_left 0 _

/-- Witness for `scores_monotone_and_nonneg` at concrete counts. -/
theorem scores_monotone_and_nonneg_witness :
    quality_score_formula 2 3 4 ≤ quality_score_formula 1 2 3
  ∧ security_score_formula 7 ≤ security_score_formula 2
  ∧ maintainability_score_formula 9 ≤ maintainability_score_formula 4
  ∧ reliability_score_formula 11 ≤ reliability_score_formula 10
  ∧ 0 ≤ quality_score_formula 50 50 50 :=
  ⟨scores_monotone_and_nonneg.1 1 2 2 3 3 4 (by decide) (by decide) (by decide),
   scores_monotone_and_nonneg.2.1 2 7 (by decide),
   scores_monotone_and_nonneg.2.2.1 4 9 (by decide),
   scores_monotone_and_nonneg.2.2.2.1 10 11 (by decide),
   scores_monotone_and_nonneg.2.2.2.2.1 50 50 50⟩

/-- C8: on an empty tree — `total_files = 0` and empty security-finding and
quality-issue lists — the aggregator yields grade `"A"` for bugs,
vulnerabilities and code smells, and all four scores equal 100. -/
theorem empty_tree_acid_scores :
    calculate_acid_scores_detailed 0 0 [] [] =
      { bugs := 0, vulnerabilities := 0, code_smells := 0,
        bugs_grade := "A", vulnerabilities_grade := "A",
        code_smells_grade := "A",
        quality_score := 100, security_score := 100,
        maintainability_score := 100, reliability_score := 100 } := by
  simp only [calculate_acid_scores_detailed, quality_score_formula,
    security_score_formula, maintainability_score_formula,
    reliability_score_formula, get_grade, List.filter_nil, List.length_nil,
    AcidScores.mk.injEq, if_pos rfl]
  norm_num

/-- C3: every dependency whose name contains `"jquery"` case-insensitively
and whose version string is lexicographically below `"3.0.0"` yields exactly
one finding with severity `"high"`, type `"XSS"`, CWE id `"CWE-79"`, file
`"package.json"` and line 0; the comparison is plain lexicographic string
order, so `"10.0.0"` also triggers it (see the witness) while `"2.1.0"`
yields exactly this one finding. -/
theorem jquery_dependency_vulnerability (name version : String)
    (hname : list_contains_infix "jquery".toList (py_lower name) = true)
    (hver : chars_lt version.toList "3.0.0".toList = true) :
    check_dependency_vulnerabilities name version =
      [{ severity := "high", type := "XSS",
         description := "jQuery XSS vulnerability",
         file := "package.json", line := 0, cwe_id := some "CWE-79" }] := by
  simp only [check_dependency_vulnerabilities, jquery_xss_vulnerability,
    hname, hver, Bool.and_self, if_true]

/-- Witness for `jquery_dependency_vulnerability`: version `"2.1.0"`
triggers the finding, and so does `"10.0.0"` because `"10.0.0" < "3.0.0"`
in lexicographic string order. -/
theorem jquery_dependency_vulnerability_witness :
    check_dependency_vulnerabilities "jquery" "2.1.0" =
      [{ severity := "high", type := "XSS",
         description := "jQuery XSS vulnerability",
         file := "package.json", line := 0, cwe_id := some "CWE-79" }]
  ∧ check_dependency_vulnerabilities "jQuery-UI" "10.0.0" =
      [{ severity := "high", type := "XSS",
         description := "jQuery XSS vulnerability",
         file := "package.json", line := 0, cwe_id := some "CWE-79" }] :=
  ⟨jquery_dependency_vulnerability "jquery" "2.1.0" (by decide) (by decide),
   jquery_dependency_vulnerability "jQuery-UI" "10.0.0" (by decide)
     (by decide)⟩

/-- C10: a dependency whose name does not contain `"jquery"`
case-insensitively, or a jquery-named dependency whose version string is
lexicographically at or above `"3.0.0"`, yields the empty vulnerability
list — the mock database has exactly one entry, so no other package name
can produce a finding. -/
theorem no_other_dependency_vulnerability (name version : String)
    (h : list_contains_infix "jquery".toList (py_lower name) = false
       ∨ chars_lt version.toList "3.0.0".toList = false) :
    check_dependency_vulnerabilities name version = [] := by
  rcases h with h | h <;>
    simp only [check_dependency_vulnerabilities, h, Bool.false_and,
      Bool.and_false, if_false, Bool.false_eq_true, ite_false]

/-- Witness for `no_other_dependency_vulnerability` at concrete inputs:
a non-jquery package, and jquery at exactly `"3.0.0"`. -/
theorem no_other_dependency_vulnerability_witness :
    check_dependency_vulnerabilities "lodash" "1.0.0" = []
  ∧ check_dependency_vulnerabilities "jquery" "3.0.0" = [] :=
  ⟨no_other_dependency_vulnerability "lodash" "1.0.0" (Or.inl (by decide)),
   no_other_dependency_vulnerability "jquery" "3.0.0" (Or.inr (by decide))⟩

/-- C6 counterexample: with only the `models` directory present, the single
emitted MVC pattern's `files` field is the full fixed list
`["models/", "views/", "controllers/"]`, not the list of matched directory
names (which would be just `models`). -/
theorem architecture_files_counterexample :
    (detect_architecture_patterns (fun d => d == "models")).map
        ArchitecturePattern.files = [["models/", "views/", "controllers/"]]
  ∧ (["models/", "views/", "controllers/"] : List String) ≠ ["models/"]
  ∧ (["models/", "views/", "controllers/"] : List String) ≠ ["models"] := by
  refine ⟨?_, by decide, by decide⟩
  rfl

/-- C6 amended: when any of `models`/`views`/`controllers` exists directly
under the root, exactly one MVC pattern is emitted, with confidence 0.8 and
`files` equal to the full fixed list `["models/", "views/", "controllers/"]`
regardless of which cue matched; when any of `services`/`microservices`
exists, exactly one Microservices pattern is emitted, with confidence 0.7
and `files` equal to `["services/", "microservices/"]`; a pattern with no
cue is omitted entirely rather than emitted with confidence 0. -/
theorem architecture_patterns_amended (dir_exists : String → Bool) :
    ((dir_exists "models" || dir_exists "views"
        || dir_exists "controllers") = true →
      (detect_architecture_patterns dir_exists).filter
          (fun p => p.pattern == "MVC") =
        [{ pattern := "MVC", confidence := 0.8,
           evidence := ["MVC directory structure detected"],
           files := ["models/", "views/", "controllers/"] }])
  ∧ ((dir_exists "models" || dir_exists "views"
        || dir_exists "controllers") = false →
      (detect_architecture_patterns dir_exists).filter
          (fun p => p.pattern == "MVC") = [])
  ∧ ((dir_exists "services" || dir_exists "microservices") = true →
      (detect_architecture_patterns dir_exists).filter
          (fun p => p.pattern == "Microservices") =
        [{ pattern := "Microservices", confidence := 0.7,
           evidence := ["Microservices directory structure detected"],
           files := ["services/", "microservices/"] }])
  ∧ ((dir_exists "services" || dir_exists "microservices") = false →
      (detect_architecture_patterns dir_exists).filter
          (fun p => p.pattern == "Microservices") = []) := by
  cases hm : (dir_exists "models" || dir_exists "views"
      || dir_exists "controllers") <;>
    cases hs : (dir_exists "services" || dir_exists "microservices") <;>
      refine ⟨fun h => ?_, fun h => ?_, fun h => ?_, fun h => ?_⟩ <;>
        first
          | exact absurd h (by decide)
          | simp [detect_architecture_patterns, hm, hs, List.filter]

/-- Witness for `architecture_patterns_amended`: only `views` present emits
exactly the MVC pattern and no Microservices pattern. -/
theorem architecture_patterns_amended_witness :
    (detect_architecture_patterns (fun d => d == "views")).filter
        (fun p => p.pattern == "MVC") =
      [{ pattern := "MVC", confidence := 0.8,
         evidence := ["MVC directory structure detected"],
         files := ["models/", "views/", "controllers/"] }]
  ∧ (detect_architecture_patterns (fun d => d == "views")).filter
        (fun p => p.pattern == "Microservices") = [] :=
  ⟨(architecture_patterns_amended (fun d => d == "views")).1 (by decide),
   (architecture_patterns_amended (fun d => d == "views")).2.2.2 (by decide)⟩

/-- C5: the complexity estimator computes
`cyclomatic = (conditionals + loops + functions) / functions` when
`functions > 0` and `cyclomatic = 0` when `functions = 0`, and
`maintainability_index = max(0, 100 - 10 * cyclomatic)`; in particular 5
functions with 10 combined conditional/loop occurrences give
`cyclomatic = 3` and `maintainability_index = 70`. -/
theorem complexity_metrics_spec (f c l : Nat) :
    (0 < f → (calculate_complexity_metrics f c l).cyclomatic_complexity =
      ((c : ℚ) + (l : ℚ) + (f : ℚ)) / (f : ℚ))
  ∧ (f = 0 → (calculate_complexity_metrics f c l).cyclomatic_complexity = 0)
  ∧ (calculate_complexity_metrics f c l).maintainability_index =
      max 0 (100 - 10 * (calculate_complexity_metrics f c l).cyclomatic_complexity)
  ∧ (f = 5 → c + l = 10 →
      (calculate_complexity_metrics f c l).cyclomatic_complexity = 3
    ∧ (calculate_complexity_metrics f c l).maintainability_index = 70) := by
  refine ⟨fun hf => ?_, fun hf => ?_, ?_, fun hf hcl => ?_⟩
  · simp [calculate_complexity_metrics, hf]
  · simp [calculate_complexity_metrics, hf]
  · simp only [calculate_complexity_metrics]
    ring_nf
  · subst hf
    have hc : (c : ℚ) + (l : ℚ) = 10 := by
      exact_mod_cast congrArg (Nat.cast : Nat → ℚ) hcl
    have hcyc : (calculate_complexity_metrics 5 c l).cyclomatic_complexity = 3 := by
      simp only [calculate_complexity_metrics, if_pos (by norm_num : (0:Nat) < 5)]
      push_cast
      rw [div_eq_iff (by norm_num : (5:ℚ) ≠ 0)]
      linarith
    refine ⟨hcyc, ?_⟩
    have hmi : (calculate_complexity_metrics 5 c l).maintainability_index =
        max 0 (100 - 10 * (calculate_complexity_metrics 5 c l).cyclomatic_complexity) := by
      simp only [calculate_complexity_metrics]
      ring_nf
    rw [hmi, hcyc]
    norm_num

/-- Witness for `complexity_metrics_spec` at the fixture input: 5
functions, 6 conditionals, 4 loops. -/
theorem complexity_metrics_spec_witness :
    (calculate_complexity_metrics 5 6 4).cyclomatic_complexity = 3
  ∧ (calculate_complexity_metrics 5 6 4).maintainability_index = 70 :=
  (complexity_metrics_spec 5 6 4).2.2.2 rfl (by decide)

/-- C4: every security finding's line number equals 1 plus the count of
newline characters in the content strictly before the match's start
offset; in particular the 3-line fixture whose line 2 contains
`password = "x"` yields a `hardcoded_secrets` finding with line 2. -/
theorem security_finding_line_numbers :
    (∀ (finditer : String → String → List Nat)
       (file_path content : String) (v : SecurityVulnerability),
       v ∈ analyze_security_vulnerabilities finditer file_path content →
       ∃ pattern start, start ∈ finditer pattern content ∧
         v.line = (content.toList.take start).count '\n' + 1)
  ∧ (∃ v, v ∈ analyze_security_vulnerabilities fixture_finditer "test.py"
        fixture_content ∧ v.type = "hardcoded_secrets" ∧ v.line = 2) := by
  constructor
  · intro finditer file_path content v hv
    simp only [analyze_security_vulnerabilities, List.mem_flatMap,
      List.mem_map] at hv
    obtain ⟨vp, hvp, pattern, hpat, start, hstart, rfl⟩ := hv
    exact ⟨pattern, start, hstart, rfl⟩
  · exact ⟨fixture_secret_finding, by decide, rfl, rfl⟩

/-- Witness for `security_finding_line_numbers`, applying its universal
part to the concrete finding the fixture emits. -/
theorem security_finding_line_numbers_witness :
    ∃ pattern start, start ∈ fixture_finditer pattern fixture_content ∧
      (2 : Nat) = (fixture_content.toList.take start).count '\n' + 1 :=
  security_finding_line_numbers.1 fixture_finditer "test.py" fixture_content
    fixture_secret_finding (by decide)

/-- Any issue emitted by the per-file quality scanner has type
`"code_smell"`. -/
theorem analyze_quality_issue_type
    (finditer : String → String → List Nat) (file_path content : String)
    (issue : CodeQualityIssue)
    (h : issue ∈ analyze_code_quality_issues finditer file_path content) :
    issue.type = "code_smell" := by
  simp only [analyze_code_quality_issues, List.mem_flatMap,
    List.mem_map] at h
  obtain ⟨ip, hip, start, hstart, rfl⟩ := h
  rfl

/-- C9: every quality issue emitted by the code-quality analyzer has type
`"code_smell"` (never `"bug"`), so the aggregated bugs count is 0, and
consequently `reliability_score = 100` and `bugs_grade = "A"`. -/
theorem quality_issues_never_bugs
    (finditer : String → String → List Nat) (total_lines total_files : Nat)
    (vulns : List SecurityVulnerability) (files : List (String × String)) :
    let issues := files.flatMap fun fc =>
      analyze_code_quality_issues finditer fc.1 fc.2
    (∀ issue ∈ issues, issue.type = "code_smell")
  ∧ (calculate_acid_scores_detailed total_lines total_files vulns
      issues).bugs = 0
  ∧ (calculate_acid_scores_detailed total_lines total_files vulns
      issues).reliability_score = 100
  ∧ (calculate_acid_scores_detailed total_lines total_files vulns
      issues).bugs_grade = "A" := by
  intro issues
  have hall : ∀ issue ∈ issues, issue.type = "code_smell" := by
    intro issue h
    rw [List.mem_flatMap] at h
    obtain ⟨fc, hfc, h⟩ := h
    exact analyze_quality_issue_type finditer fc.1 fc.2 issue h
  have hfilter : issues.filter (fun issue => issue.type == "bug") = [] := by
    refine List.filter_eq_nil_iff.mpr fun issue h => ?_
    rw [hall issue h]
    decide
  refine ⟨hall, ?_, ?_, ?_⟩
  · simp only [calculate_acid_scores_detailed, hfilter, List.length_nil]
  · simp only [calculate_acid_scores_detailed, hfilter, List.length_nil,
      reliability_score_formula]
    norm_num
  · simp only [calculate_acid_scores_detailed, hfilter, List.length_nil]
    exact get_grade_zero total_files

/-- Witness for `quality_issues_never_bugs` at a concrete oracle, file list
and aggregator inputs. -/
theorem quality_issues_never_bugs_witness :
    (calculate_acid_scores_detailed 40 3 []
      ([("f.py", "x = 1")].flatMap fun fc =>
        analyze_code_quality_issues (fun _ _ => [0]) fc.1 fc.2)).bugs = 0
  ∧ (calculate_acid_scores_detailed 40 3 []
      ([("f.py", "x = 1")].flatMap fun fc =>
        analyze_code_quality_issues (fun _ _ => [0]) fc.1 fc.2)).bugs_grade
      = "A" :=
  ⟨(quality_issues_never_bugs (fun _ _ => [0]) 40 3 []
      [("f.py", "x = 1")]).2.1,
   (quality_issues_never_bugs (fun _ _ => [0]) 40 3 []
      [("f.py", "x = 1")]).2.2.2⟩

end GithubAnalyzer
